import Mathlib

/-
Verification of the `ferrux_projection_matrix` crate (src/lib.rs).

The crate exposes one component, `ProjectionMatrixBuilder`, holding five
configuration values (`near`, `far`, `fov` as `f32`; `width`, `height` as
`usize`) and producing a 4x4 `f32` projection matrix.

Embedding choices:
- `f32` values are modelled as real numbers; the `f32` trigonometric and
  division operations are modelled by the exact real operations.  Rust's
  float division never panics; division by zero (an IEEE infinity in the
  source) is modelled by Lean's real division convention.
- `usize` is modelled as `Nat`.
- A Rust `panic!` is modelled by returning `none`; a function that cannot
  panic is a total function.
- The 4x4 row-major array `[[f32; 4]; 4]` is modelled as
  `Fin 4 → Fin 4 → ℝ`, and the imperative assignment `matrix[i][j] = v`
  by the pointwise update `setEntry`.
-/

noncomputable section

namespace FerruxProjectionMatrix

/-- Constant `DEFAULT_NEAR: f32 = 0.0` from the source. -/
def DEFAULT_NEAR : ℝ := 0.0

/-- Constant `DEFAULT_FAR: f32 = 1000.0` from the source. -/
def DEFAULT_FAR : ℝ := 1000.0

/-- Constant `DEFAULT_FIELD_OF_VIEW: f32 = 90.0` from the source. -/
def DEFAULT_FIELD_OF_VIEW : ℝ := 90.0

/-- Constant `DEFAULT_WIDTH: usize = 1280` from the source. -/
def DEFAULT_WIDTH : ℕ := 1280

/-- Constant `DEFAULT_HEIGHT: usize = 720` from the source. -/
def DEFAULT_HEIGHT : ℕ := 720

/-- The `Matrix` type alias of the source: `[[f32; 4]; 4]`, row-major. -/
abbrev Matrix4 := Fin 4 → Fin 4 → ℝ

/-- The imperative 2D-array assignment `matrix[i][j] = v` of the source. -/
def setEntry (m : Matrix4) (i j : Fin 4) (v : ℝ) : Matrix4 :=
  fun i' j' => if i' = i ∧ j' = j then v else m i' j'

/-- The `ProjectionMatrixBuilder` struct: five configuration fields. -/
structure ProjectionMatrixBuilder where
  near : ℝ
  far : ℝ
  fov : ℝ
  width : ℕ
  height : ℕ

namespace ProjectionMatrixBuilder

/-- `ProjectionMatrixBuilder::new`: builder with the five default values. -/
def new : ProjectionMatrixBuilder :=
  { near := DEFAULT_NEAR
    far := DEFAULT_FAR
    fov := DEFAULT_FIELD_OF_VIEW
    width := DEFAULT_WIDTH
    height := DEFAULT_HEIGHT }

/-- `set_near`: stores the given near clip position; no validation. -/
def set_near (c : ProjectionMatrixBuilder) (near : ℝ) : ProjectionMatrixBuilder :=
  { c with near := near }

/-- `set_far`: stores the given far clip position; no validation. -/
def set_far (c : ProjectionMatrixBuilder) (far : ℝ) : ProjectionMatrixBuilder :=
  { c with far := far }

/-- `set_fov`: panics (`none`) unless `(0.0..360.0).contains(&fov)`, i.e.
unless `0 ≤ fov ∧ fov < 360` (Rust's `Range::contains` is half-open);
otherwise stores the value. -/
def set_fov (c : ProjectionMatrixBuilder) (fov : ℝ) : Option ProjectionMatrixBuilder :=
  if ¬(0 ≤ fov ∧ fov < 360) then none
  else some { c with fov := fov }

/-- `set_width`: stores the given screen width; no validation. -/
def set_width (c : ProjectionMatrixBuilder) (width : ℕ) : ProjectionMatrixBuilder :=
  { c with width := width }

/-- `set_height`: stores the given screen height; no validation. -/
def set_height (c : ProjectionMatrixBuilder) (height : ℕ) : ProjectionMatrixBuilder :=
  { c with height := height }

/-- `build`: assembles the projection matrix from the five stored fields.
Mirrors the source body: zero-initialized matrix, `aspect_ratio` and
`fov_rad` computed first, then the panic check `far < near` (`none`), then
`distance = far - near` and the five entry assignments. -/
def build (c : ProjectionMatrixBuilder) : Option Matrix4 :=
  let matrix : Matrix4 := fun _ _ => 0.0
  let aspect_ratio : ℝ := (c.width : ℝ) / (c.height : ℝ)
  let fov_rad : ℝ := 1.0 / Real.tan (c.fov * 0.5 / 180.0 * Real.pi)
  if c.far < c.near then none
  else
    let distance : ℝ := c.far - c.near
    let matrix := setEntry matrix 0 0 ( aspect_ratio * fov_rad)
    let matrix := setEntry matrix 1 1 fov_rad
    let matrix := setEntry matrix 2 2 (c.far * distance)
    let matrix := setEntry matrix 3 2 ((-c.far * c.near) / distance)
    let matrix := setEntry matrix 2 3 1.0
    some matrix

/-- The `Default` impl of the source: delegates to `new`. -/
def «default» : ProjectionMatrixBuilder := new

/-- A call `c.build()` on a shared reference `&self`: the borrowed builder
is returned unchanged next to the result, since the method body never
writes a field of `self`. -/
def buildCall (c : ProjectionMatrixBuilder) : Option Matrix4 × ProjectionMatrixBuilder :=
  (c.build, c)

end ProjectionMatrixBuilder

/-- The matrix assembled by the non-panicking branch of `build`, with the
local variables `aspect_ratio`, `fov_rad` and `distance` expanded. -/
def assembledMatrix (c : ProjectionMatrixBuilder) : Matrix4 :=
  setEntry (setEntry (setEntry (setEntry (setEntry (fun _ _ => 0.0)
    0 0 (((c.width : ℝ) / (c.height : ℝ)) * (1.0 / Real.tan (c.fov * 0.5 / 180.0 * Real.pi))))
    1 1 (1.0 / Real.tan (c.fov * 0.5 / 180.0 * Real.pi)))
    2 2 (c.far * (c.far - c.near)))
    3 2 ((-c.far * c.near) / (c.far - c.near)))
    2 3 1.0

section Helpers

open ProjectionMatrixBuilder

lemma setEntry_same (m : Matrix4) (i j : Fin 4) (v : ℝ) : setEntry m i j v i j = v := by
  simp [setEntry]

lemma setEntry_other (m : Matrix4) (i j : Fin 4) (v : ℝ) (i' j' : Fin 4)
    (h : ¬(i' = i ∧ j' = j)) : setEntry m i j v i' j' = m i' j' := by
  simp only [setEntry, if_neg h]

lemma build_eq_none (c : ProjectionMatrixBuilder) (h : c.far < c.near) : c.build = none := by
  simp only [ProjectionMatrixBuilder.build, if_pos h]

lemma build_eq_some (c : ProjectionMatrixBuilder) (h : ¬ c.far < c.near) :
    c.build = some (assembledMatrix c) := by
  simp only [ProjectionMatrixBuilder.build, if_neg h]
  rfl

lemma assembled_apply_00 (c : ProjectionMatrixBuilder) :
    assembledMatrix c 0 0 =
      ((c.width : ℝ) / (c.height : ℝ)) * (1.0 / Real.tan (c.fov * 0.5 / 180.0 * Real.pi)) := by
  unfold assembledMatrix
  rw [setEntry_other _ _ _ _ _ _ (by decide), setEntry_other _ _ _ _ _ _ (by decide),
    setEntry_other _ _ _ _ _ _ (by decide), setEntry_other _ _ _ _ _ _ (by decide),
    setEntry_same]

lemma assembled_apply_11 (c : ProjectionMatrixBuilder) :
    assembledMatrix c 1 1 = 1.0 / Real.tan (c.fov * 0.5 / 180.0 * Real.pi) := by
  unfold assembledMatrix
  rw [setEntry_other _ _ _ _ _ _ (by decide), setEntry_other _ _ _ _ _ _ (by decide),
    setEntry_other _ _ _ _ _ _ (by decide), setEntry_same]

lemma assembled_apply_22 (c : ProjectionMatrixBuilder) :
    assembledMatrix c 2 2 = c.far * (c.far - c.near) := by
  unfold assembledMatrix
  rw [setEntry_other _ _ _ _ _ _ (by decide), setEntry_other _ _ _ _ _ _ (by decide),
    setEntry_same]

lemma assembled_apply_32 (c : ProjectionMatrixBuilder) :
    assembledMatrix c 3 2 = (-c.far * c.near) / (c.far - c.near) := by
  unfold assembledMatrix
  rw [setEntry_other _ _ _ _ _ _ (by decide), setEntry_same]

lemma assembled_apply_23 (c : ProjectionMatrixBuilder) :
    assembledMatrix c 2 3 = 1.0 := by
  unfold assembledMatrix
  rw [setEntry_same]

lemma assembled_apply_zero (c : ProjectionMatrixBuilder) (i j : Fin 4)
    (h00 : ¬(i = 0 ∧ j = 0)) (h11 : ¬(i = 1 ∧ j = 1)) (h22 : ¬(i = 2 ∧ j = 2))
    (h32 : ¬(i = 3 ∧ j = 2)) (h23 : ¬(i = 2 ∧ j = 3)) : assembledMatrix c i j = 0 := by
  unfold assembledMatrix
  rw [setEntry_other _ _ _ _ _ _ h23, setEntry_other _ _ _ _ _ _ h32,
    setEntry_other _ _ _ _ _ _ h22, setEntry_other _ _ _ _ _ _ h11,
    setEntry_other _ _ _ _ _ _ h00]
  norm_num

end Helpers

section Claims

open ProjectionMatrixBuilder

/-- Claim C1 (code bug witness): the source's `set_fov` uses the half-open
range check `(0.0..360.0).contains(&fov)`, so the boundary value `fov = 0`
is accepted and stored, although the function's own documentation and panic
message (`(0, 360)` range, "positive value") require an abort there. -/
theorem claim_C1_fov_zero_accepted :
    ProjectionMatrixBuilder.new.set_fov 0 =
      some { ProjectionMatrixBuilder.new with fov := 0 } := by
  unfold ProjectionMatrixBuilder.set_fov
  rw [if_neg (by norm_num : ¬¬((0:ℝ) ≤ 0 ∧ (0:ℝ) < 360))]

/-- Claim C2 counterexample: with `near = far = 1` the viewing-volume depth
`far - near` is `0`, not strictly positive, yet `build()` does not abort: it
returns a matrix. -/
theorem claim_C2_counterexample :
    ((ProjectionMatrixBuilder.new.set_near 1).set_far 1).build ≠ none := by
  rw [build_eq_some _ (by
    norm_num [ProjectionMatrixBuilder.new, ProjectionMatrixBuilder.set_near,
      ProjectionMatrixBuilder.set_far])]
  simp

/-- Claim C2 (amended): `build()` aborts only when `far < near`; for every
configuration with `far == near` it does not abort and returns the assembled
matrix (whose `m[3][2]` entry is a division by the zero depth). -/
theorem claim_C2_amended (c : ProjectionMatrixBuilder) (h : c.far = c.near) :
    c.build = some (assembledMatrix c) :=
  build_eq_some c (by rw [h]; exact lt_irrefl _)

/-- Witness for C2 (amended) at the concrete configuration with
`near = 0, far = 0`. -/
theorem claim_C2_amended_witness :
    (ProjectionMatrixBuilder.new.set_far 0).build =
      some (assembledMatrix (ProjectionMatrixBuilder.new.set_far 0)) :=
  claim_C2_amended _ (by
    norm_num [ProjectionMatrixBuilder.new, ProjectionMatrixBuilder.set_far, DEFAULT_NEAR])

/-- Claim C4: `build()` aborts exactly on `far < near`: it returns `none`
when `far < near`, and when `near ≤ far` the check passes and the assembled
matrix is returned. -/
theorem claim_C4_build_guard (c : ProjectionMatrixBuilder) :
    (c.far < c.near → c.build = none) ∧
    (c.near ≤ c.far → c.build = some (assembledMatrix c)) :=
  ⟨fun h => build_eq_none c h, fun h => build_eq_some c (not_lt.mpr h)⟩

/-- Witness for C4: an aborting build (`near = 2, far = 1`) and a succeeding
build (the default configuration). -/
theorem claim_C4_build_guard_witness :
    ((ProjectionMatrixBuilder.new.set_near 2).set_far 1).build = none ∧
    ProjectionMatrixBuilder.new.build =
      some (assembledMatrix ProjectionMatrixBuilder.new) := by
  constructor
  · exact (claim_C4_build_guard _).1 (by
      norm_num [ProjectionMatrixBuilder.new, ProjectionMatrixBuilder.set_near,
        ProjectionMatrixBuilder.set_far])
  · exact (claim_C4_build_guard _).2 (by
      norm_num [ProjectionMatrixBuilder.new, DEFAULT_NEAR, DEFAULT_FAR])

/-- Claim C6: `build` is deterministic and idempotent: a second build of an
unmodified configuration yields the identical matrix, and two configurations
with identical field values build identical matrices. -/
theorem claim_C6_deterministic :
    (∀ c : ProjectionMatrixBuilder, c.build = c.build) ∧
    ∀ c₁ c₂ : ProjectionMatrixBuilder,
      c₁.near = c₂.near → c₁.far = c₂.far → c₁.fov = c₂.fov →
      c₁.width = c₂.width → c₁.height = c₂.height → c₁.build = c₂.build := by
  refine ⟨fun _ => rfl, ?_⟩
  rintro ⟨n₁, f₁, v₁, w₁, t₁⟩ ⟨n₂, f₂, v₂, w₂, t₂⟩ rfl rfl rfl rfl rfl
  rfl

/-- Witness for C6 at the default configuration. -/
theorem claim_C6_deterministic_witness :
    ProjectionMatrixBuilder.new.build = ProjectionMatrixBuilder.new.build :=
  claim_C6_deterministic.2 ProjectionMatrixBuilder.new ProjectionMatrixBuilder.new
    rfl rfl rfl rfl rfl

/-- Claim C8: the constructor is total and returns exactly the documented
defaults, and the `Default` impl delegates to it. -/
theorem claim_C8_defaults :
    ProjectionMatrixBuilder.new.near = 0 ∧ ProjectionMatrixBuilder.new.far = 1000 ∧
    ProjectionMatrixBuilder.new.fov = 90 ∧ ProjectionMatrixBuilder.new.width = 1280 ∧
    ProjectionMatrixBuilder.new.height = 720 ∧
    ProjectionMatrixBuilder.«default» = ProjectionMatrixBuilder.new := by
  refine ⟨?_, ?_, ?_, rfl, rfl, rfl⟩ <;>
    norm_num [ProjectionMatrixBuilder.new, DEFAULT_NEAR, DEFAULT_FAR, DEFAULT_FIELD_OF_VIEW]

/-- Claim C9: `build()` takes the builder by shared reference and never
writes a field of `self`: after the call all five fields of the builder are
unchanged. -/
theorem claim_C9_no_mutation (c : ProjectionMatrixBuilder) :
    c.buildCall.2.near = c.near ∧ c.buildCall.2.far = c.far ∧
    c.buildCall.2.fov = c.fov ∧ c.buildCall.2.width = c.width ∧
    c.buildCall.2.height = c.height :=
  ⟨rfl, rfl, rfl, rfl, rfl⟩

/-- Claim C10: each of the five setters stores its value in its own field
and leaves the other four fields unchanged; `set_near`, `set_far`,
`set_width` and `set_height` are total (no validation, no abort), and a
successful `set_fov` changes only the `fov` field. -/
theorem claim_C10_setters (c : ProjectionMatrixBuilder) (v : ℝ) (n : ℕ) :
    ((c.set_near v).near = v ∧ (c.set_near v).far = c.far ∧ (c.set_near v).fov = c.fov ∧
      (c.set_near v).width = c.width ∧ (c.set_near v).height = c.height) ∧
    ((c.set_far v).far = v ∧ (c.set_far v).near = c.near ∧ (c.set_far v).fov = c.fov ∧
      (c.set_far v).width = c.width ∧ (c.set_far v).height = c.height) ∧
    ((c.set_width n).width = n ∧ (c.set_width n).near = c.near ∧ (c.set_width n).far = c.far ∧
      (c.set_width n).fov = c.fov ∧ (c.set_width n).height = c.height) ∧
    ((c.set_height n).height = n ∧ (c.set_height n).near = c.near ∧
      (c.set_height n).far = c.far ∧ (c.set_height n).fov = c.fov ∧
      (c.set_height n).width = c.width) ∧
    (∀ c', c.set_fov v = some c' → c'.fov = v ∧ c'.near = c.near ∧ c'.far = c.far ∧
      c'.width = c.width ∧ c'.height = c.height) := by
  refine ⟨⟨rfl, rfl, rfl, rfl, rfl⟩, ⟨rfl, rfl, rfl, rfl, rfl⟩, ⟨rfl, rfl, rfl, rfl, rfl⟩,
    ⟨rfl, rfl, rfl, rfl, rfl⟩, ?_⟩
  intro c' h
  unfold ProjectionMatrixBuilder.set_fov at h
  split at h
  · exact absurd h (by simp)
  · cases Option.some.inj h
    exact ⟨rfl, rfl, rfl, rfl, rfl⟩

/-- Witness for C10 at the default configuration, with `fov = 45`. -/
theorem claim_C10_setters_witness :
    (ProjectionMatrixBuilder.new.set_near 2).far = ProjectionMatrixBuilder.new.far ∧
    ∃ c', ProjectionMatrixBuilder.new.set_fov 45 = some c' ∧ c'.fov = 45 ∧
      c'.width = ProjectionMatrixBuilder.new.width := by
  have hfov : ProjectionMatrixBuilder.new.set_fov 45 =
      some { ProjectionMatrixBuilder.new with fov := 45 } := by
    unfold ProjectionMatrixBuilder.set_fov
    rw [if_neg (by norm_num : ¬¬((0:ℝ) ≤ 45 ∧ (45:ℝ) < 360))]
  refine ⟨(claim_C10_setters ProjectionMatrixBuilder.new 2 7).1.2.1, ?_⟩
  obtain h := (claim_C10_setters ProjectionMatrixBuilder.new 45 7).2.2.2.2 _ hfov
  exact ⟨_, hfov, h.1, h.2.2.2.1⟩

/-- Claim C3: whenever `build()` returns a matrix, its entries are exactly
`m[0][0] = (width/height) * fov_scale`, `m[1][1] = fov_scale`,
`m[2][2] = far * (far - near)`, `m[3][2] = (-far * near) / (far - near)`,
`m[2][3] = 1`, and the remaining 11 entries are `0`, with
`fov_scale = 1 / tan (fov * 0.5 * (pi / 180))` and `width`, `height`
promoted to reals before the division. -/
theorem claim_C3_matrix_entries (c : ProjectionMatrixBuilder) (m : Matrix4)
    (h : c.build = some m) :
    m 0 0 = ((c.width : ℝ) / (c.height : ℝ)) * (1 / Real.tan (c.fov * 0.5 * (Real.pi / 180))) ∧
    m 1 1 = 1 / Real.tan (c.fov * 0.5 * (Real.pi / 180)) ∧
    m 2 2 = c.far * (c.far - c.near) ∧
    m 3 2 = (-c.far * c.near) / (c.far - c.near) ∧
    m 2 3 = 1 ∧
    ∀ i j : Fin 4, ¬(i = 0 ∧ j = 0) → ¬(i = 1 ∧ j = 1) → ¬(i = 2 ∧ j = 2) →
      ¬(i = 3 ∧ j = 2) → ¬(i = 2 ∧ j = 3) → m i j = 0 := by
  have hlt : ¬ c.far < c.near := by
    intro hlt
    rw [build_eq_none c hlt] at h
    exact Option.noConfusion h
  have hm : m = assembledMatrix c := by
    have h2 := build_eq_some c hlt
    rw [h] at h2
    exact Option.some.inj h2
  subst hm
  have harg : c.fov * 0.5 / 180.0 * Real.pi = c.fov * 0.5 * (Real.pi / 180) := by ring
  refine ⟨?_, ?_, assembled_apply_22 c, assembled_apply_32 c, ?_,
    fun i j h00 h11 h22 h32 h23 => assembled_apply_zero c i j h00 h11 h22 h32 h23⟩
  · rw [assembled_apply_00, harg]
    norm_num
  · rw [assembled_apply_11, harg]
    norm_num
  · rw [assembled_apply_23]
    norm_num

/-- Witness for C3 at the default configuration: the build succeeds, the
`(2,3)` entry is `1` and the untouched `(0,1)` entry is `0`. -/
theorem claim_C3_matrix_entries_witness :
    ∃ m : Matrix4, ProjectionMatrixBuilder.new.build = some m ∧ m 2 3 = 1 ∧ m 0 1 = 0 := by
  have hb : ProjectionMatrixBuilder.new.build =
      some (assembledMatrix ProjectionMatrixBuilder.new) :=
    build_eq_some _ (by norm_num [ProjectionMatrixBuilder.new, DEFAULT_NEAR, DEFAULT_FAR])
  obtain h := claim_C3_matrix_entries _ _ hb
  exact ⟨_, hb, h.2.2.2.2.1,
    h.2.2.2.2.2 0 1 (by decide) (by decide) (by decide) (by decide) (by decide)⟩

/-- Claim C5: building with the default configuration yields
`m[0][0] = 1280/720`, `m[1][1]` within `1e-4` of `1` (here exactly `1`,
since `tan (pi/4) = 1` in the real model), `m[2][2] = 1000000`,
`m[3][2] = 0`, `m[2][3] = 1`, and every other entry `0`. -/
theorem claim_C5_default_build :
    ∃ m : Matrix4, ProjectionMatrixBuilder.new.build = some m ∧
      m 0 0 = 1280 / 720 ∧ |m 1 1 - 1| < 1 / 10000 ∧ m 2 2 = 1000000 ∧
      m 3 2 = 0 ∧ m 2 3 = 1 ∧
      ∀ i j : Fin 4, ¬(i = 0 ∧ j = 0) → ¬(i = 1 ∧ j = 1) → ¬(i = 2 ∧ j = 2) →
        ¬(i = 3 ∧ j = 2) → ¬(i = 2 ∧ j = 3) → m i j = 0 := by
  have hb : ProjectionMatrixBuilder.new.build =
      some (assembledMatrix ProjectionMatrixBuilder.new) :=
    build_eq_some _ (by norm_num [ProjectionMatrixBuilder.new, DEFAULT_NEAR, DEFAULT_FAR])
  have hfov : ProjectionMatrixBuilder.new.fov = 90 := by
    norm_num [ProjectionMatrixBuilder.new, DEFAULT_FIELD_OF_VIEW]
  have htan : Real.tan (ProjectionMatrixBuilder.new.fov * 0.5 / 180.0 * Real.pi) = 1 := by
    rw [hfov]
    have harg : (90:ℝ) * 0.5 / 180.0 * Real.pi = Real.pi / 4 := by ring
    rw [harg, Real.tan_pi_div_four]
  refine ⟨_, hb, ?_, ?_, ?_, ?_, ?_, fun i j h00 h11 h22 h32 h23 =>
    assembled_apply_zero _ i j h00 h11 h22 h32 h23⟩
  · rw [assembled_apply_00, htan]
    norm_num [ProjectionMatrixBuilder.new, DEFAULT_WIDTH, DEFAULT_HEIGHT]
  · rw [assembled_apply_11, htan]
    norm_num
  · rw [assembled_apply_22]
    norm_num [ProjectionMatrixBuilder.new, DEFAULT_NEAR, DEFAULT_FAR]
  · rw [assembled_apply_32]
    norm_num [ProjectionMatrixBuilder.new, DEFAULT_NEAR, DEFAULT_FAR]
  · rw [assembled_apply_23]
    norm_num

/-- Witness for C5: the off-diagonal entry `(1,0)` of the default build
is `0`. -/
theorem claim_C5_default_build_witness :
    ∃ m : Matrix4, ProjectionMatrixBuilder.new.build = some m ∧ m 1 0 = 0 := by
  obtain ⟨m, hm, -, -, -, -, -, hz⟩ := claim_C5_default_build
  exact ⟨m, hm, hz 1 0 (by decide) (by decide) (by decide) (by decide) (by decide)⟩

/-- Claim C7: a zero height is never validated: `set_height 0` always
succeeds and stores `0`, and (when `near ≤ far`) `build()` also completes,
with the result of the division `width / 0` (an IEEE infinity in the `f32`
source, the real-division convention value here) propagating silently into
the entry `m[0][0]`. -/
theorem claim_C7_zero_height (c : ProjectionMatrixBuilder) (h : c.near ≤ c.far) :
    (c.set_height 0).height = 0 ∧
    ∃ m : Matrix4, (c.set_height 0).build = some m ∧
      m 0 0 = ((c.width : ℝ) / ((0 : ℕ) : ℝ)) *
        (1.0 / Real.tan (c.fov * 0.5 / 180.0 * Real.pi)) := by
  refine ⟨rfl, assembledMatrix (c.set_height 0), build_eq_some _ (not_lt.mpr h), ?_⟩
  exact assembled_apply_00 (c.set_height 0)

/-- Witness for C7 at the default configuration. -/
theorem claim_C7_zero_height_witness :
    (ProjectionMatrixBuilder.new.set_height 0).height = 0 ∧
    ∃ m : Matrix4, (ProjectionMatrixBuilder.new.set_height 0).build = some m := by
  obtain ⟨h0, m, hm, -⟩ := claim_C7_zero_height ProjectionMatrixBuilder.new
    (by norm_num [ProjectionMatrixBuilder.new, DEFAULT_NEAR, DEFAULT_FAR])
  exact ⟨h0, m, hm⟩

end Claims

end FerruxProjectionMatrix
